import Mathlib

/-
Verification of the device-state detection, mode-transition and
flash-orchestration logic of C37BlobsFlasher.py (OnePlus N200 C.37 blobs
autoflasher). External commands are modelled by their captured results:
the run helper of the script returns the pair (stdout, stderr) of a
command, or the absence signal when the binary is missing, so a command
result is an Option of a pair of strings. Loops that poll the device are
modelled over a stream of command results indexed by the poll number.
-/

/-- Result of the run helper: none models the missing-binary absence
signal, some (out, err) the stripped stdout and stderr of the command. -/
abbrev RunResult := Option (String × String)

/-- Boolean test for the whitespace characters stripped by the script
when it strips command output and device-list lines. -/
def isPyWhitespace (c : Char) : Bool :=
  c == ' ' || c == '\t' || c == '\n' || c == '\r' || c == '\x0b' || c == '\x0c'

/-- Does the first list occur at the head of the second list? -/
def charListHasPrefix : List Char → List Char → Bool
  | [], _ => true
  | _ :: _, [] => false
  | a :: as, b :: bs => a == b && charListHasPrefix as bs

/-- Does the pattern occur contiguously anywhere in the list? -/
def charListContains (pat : List Char) : List Char → Bool
  | [] => charListHasPrefix pat []
  | c :: rest => charListHasPrefix pat (c :: rest) || charListContains pat rest

/-- Substring containment, the in operator of the script on strings. -/
def strContains (s pat : String) : Bool := charListContains pat.data s.data

/-- Strip leading and trailing whitespace, the strip method. -/
def pyStrip (s : String) : String :=
  ⟨((s.data.dropWhile isPyWhitespace).reverse.dropWhile isPyWhitespace).reverse⟩

/-- Suffix test, the endswith method. -/
def strEndsWith (s suf : String) : Bool :=
  charListHasPrefix suf.data.reverse s.data.reverse

/-- ASCII lower-casing of one character, as the lower method acts on the
ASCII device fingerprints scanned by the script. -/
def charToLower (c : Char) : Char :=
  if 65 ≤ c.toNat && c.toNat ≤ 90 then Char.ofNat (c.toNat + 32) else c

/-- Lower-casing of a string, the lower method. -/
def strToLower (s : String) : String := ⟨s.data.map charToLower⟩

/-- Helper for splitlines: cut the character list at every newline, with
the reversed current line as accumulator. -/
def splitlinesAux : List Char → List Char → List String
  | [], acc => [⟨acc.reverse⟩]
  | c :: rest, acc =>
    if c == '\n' then ⟨acc.reverse⟩ :: splitlinesAux rest []
    else splitlinesAux rest (c :: acc)

/-- Split a string into its lines at newline characters, the splitlines
method as it acts on the line-oriented tool output read by the script. -/
def splitlines (s : String) : List String := splitlinesAux s.data []

/-- Truthiness of a string: nonempty strings are true. -/
def pyTruthy (s : String) : Bool := s != ""

/-- Combined output (out or empty) ++ (err or empty) built by the
fastboot-side detectors from a run result. -/
def combined_output (res : RunResult) : String :=
  match res with
  | none => ""
  | some (out, err) => out ++ err

/-- adb_device_present: on the absence signal report false; otherwise
drop the header line of the device list and report whether some later
line, once stripped, ends with the word device. -/
def adb_device_present (res : RunResult) : Bool :=
  match res with
  | none => false
  | some (out, _) =>
    ((splitlines out).drop 1).any fun line => strEndsWith (pyStrip line) "device"

/-- detect_oneplus_n200_adb: on the absence signal report false;
otherwise scan the getprop stdout for a line holding both the property
key ro.product.name and the model token OnePlusN200, case-sensitively. -/
def detect_oneplus_n200_adb (res : RunResult) : Bool :=
  match res with
  | none => false
  | some (out, _) =>
    (splitlines out).any fun line =>
      strContains line "ro.product.name" && strContains line "OnePlusN200"

/-- fastboot_device_present: truthiness of the stripped combined stdout
and stderr of the fastboot devices command. -/
def fastboot_device_present (res : RunResult) : Bool :=
  pyTruthy (pyStrip (combined_output res))

/-- The three classifications of the fastboot submode query. -/
inductive FastbootMode
  | fastbootd
  | bootloader
  | unknown
  deriving DecidableEq

/-- detect_fastboot_mode: lower-case the combined output of the getvar
is-userspace query and classify by substring match; anything else,
including the absence signal, is unknown. -/
def detect_fastboot_mode (res : RunResult) : FastbootMode :=
  if strContains (strToLower (combined_output res)) "is-userspace: yes" then
    FastbootMode.fastbootd
  else if strContains (strToLower (combined_output res)) "is-userspace: no" then
    FastbootMode.bootloader
  else FastbootMode.unknown

/-- detect_oneplus_n200_fastboot: scan the combined output of the getvar
all query for a line whose lower-casing holds both system-fingerprint
and oneplusn200. -/
def detect_oneplus_n200_fastboot (res : RunResult) : Bool :=
  (splitlines (combined_output res)).any fun line =>
    strContains (strToLower line) "system-fingerprint" &&
      strContains (strToLower line) "oneplusn200"

/-- Environment of the ensure_fastbootd loop: for each poll iteration,
the result of the getvar is-userspace command and the result of the
fastboot devices command issued on that iteration. -/
structure FastbootEnv where
  getvar : Nat → RunResult
  devices : Nat → RunResult

/-- What one iteration of the ensure_fastbootd loop does: stop with a
boolean result, issue the reboot-to-fastbootd command and wait 15 time
units before the next poll, or just wait 3 time units and retry. -/
inductive LoopStep
  | stop (result : Bool)
  | rebootAndWait (delay : Nat)
  | waitRetry (delay : Nat)
  deriving DecidableEq

/-- One iteration of the ensure_fastbootd loop body, given the results
of the two commands it issues: the submode query result g and the device
list result d. The script computes the mode from g, then returns false
when no fastboot device is present in d, then branches on the mode:
fastbootd stops with true, bootloader issues fastboot reboot fastboot
and waits 15 seconds, anything else waits 3 seconds and retries. -/
def ensure_fastbootd_step (g d : RunResult) : LoopStep :=
  if fastboot_device_present d = false then LoopStep.stop false
  else
    match detect_fastboot_mode g with
    | FastbootMode.fastbootd => LoopStep.stop true
    | FastbootMode.bootloader => LoopStep.rebootAndWait 15
    | FastbootMode.unknown => LoopStep.waitRetry 3

/-- The ensure_fastbootd loop over a poll stream, with fuel bounding the
number of iterations that can be observed: none means the loop was still
running after that many iterations, some b that it returned b. The index
i counts the iterations already performed. -/
def ensure_fastbootd_loop (env : FastbootEnv) : Nat → Nat → Option Bool
  | 0, _ => none
  | fuel + 1, i =>
    match ensure_fastbootd_step (env.getvar i) (env.devices i) with
    | LoopStep.stop b => some b
    | LoopStep.rebootAndWait _ => ensure_fastbootd_loop env fuel (i + 1)
    | LoopStep.waitRetry _ => ensure_fastbootd_loop env fuel (i + 1)

/-- Per-partition outcome of the flash sweep, as reported by the status
lines of flash_images. -/
inductive FlashOutcome
  | Flashed
  | SkippedMissingFile
  | Failed (stderr : String)
  deriving DecidableEq

/-- Environment of flash_images: the result of the identity getvar all
query, which image files exist in the directory, and the outcome of the
direct subprocess invocation of fastboot flash for a partition and image
file, where none models the missing-binary exception of the direct call
(flash_images does not route this call through the run helper). -/
structure FlashEnv where
  getvarAll : RunResult
  fileExists : String → Bool
  flashResult : String → String → Option (Int × String)

/-- Overall result of flash_images: the identity re-check failed and the
sweep was never entered, or the sweep completed with a per-partition
report, or the direct flash invocation raised the missing-binary
exception at some partition and the rest of the sweep was abandoned. -/
inductive FlashImagesResult
  | abortedIdentity
  | report (outcomes : List (String × FlashOutcome))
  | uncaughtToolAbsent (partition : String)
  deriving DecidableEq

/-- The fixed ordered partition list flashed by the script. -/
def FLASH_COMMANDS : List (String × String) := [
  ("abl", "abl.img"),
  ("bluetooth", "bluetooth.img"),
  ("core_nhlos", "core_nhlos.img"),
  ("devcfg", "devcfg.img"),
  ("dsp", "dsp.img"),
  ("featenabler", "featenabler.img"),
  ("hyp", "hyp.img"),
  ("imagefv", "imagefv.img"),
  ("keymaster", "keymaster.img"),
  ("logo", "logo.img"),
  ("modem", "modem.img"),
  ("oplusstanvbk", "oplusstanvbk.img"),
  ("qupfw", "qupfw.img"),
  ("rpm", "rpm.img"),
  ("tz", "tz.img"),
  ("uefisecapp", "uefisecapp.img"),
  ("xbl_config", "xbl_config.img"),
  ("xbl", "xbl.img")]

/-- The sweep of flash_images over a partition list. Returns the
recorded outcomes in order, the flash commands issued in order as
partition and image-file pairs, and, when the direct flash invocation
raised the missing-binary exception, the partition at which the sweep
was abandoned. A missing file records SkippedMissingFile and continues,
a nonzero exit records Failed with the captured stderr, a zero exit
records Flashed; neither failure kind stops the sweep. -/
def flash_sweep (env : FlashEnv) : List (String × String) →
    List (String × FlashOutcome) × List (String × String) × Option String
  | [] => ([], [], none)
  | (partition, img_file) :: rest =>
    if env.fileExists img_file = false then
      ((partition, FlashOutcome.SkippedMissingFile) :: (flash_sweep env rest).1,
       (flash_sweep env rest).2.1,
       (flash_sweep env rest).2.2)
    else
      match env.flashResult partition img_file with
      | none => ([], [(partition, img_file)], some partition)
      | some (rc, errOut) =>
        ((partition,
            if rc ≠ 0 then FlashOutcome.Failed errOut else FlashOutcome.Flashed) ::
              (flash_sweep env rest).1,
         (partition, img_file) :: (flash_sweep env rest).2.1,
         (flash_sweep env rest).2.2)

/-- flash_images: re-check device identity with detect_oneplus_n200_fastboot
and, if it fails, abort before the sweep with no commands issued;
otherwise run the sweep over FLASH_COMMANDS. The second component is the
list of flash commands issued. -/
def flash_images (env : FlashEnv) : FlashImagesResult × List (String × String) :=
  if detect_oneplus_n200_fastboot env.getvarAll then
    match (flash_sweep env FLASH_COMMANDS).2.2 with
    | some p => (FlashImagesResult.uncaughtToolAbsent p, (flash_sweep env FLASH_COMMANDS).2.1)
    | none =>
      (FlashImagesResult.report (flash_sweep env FLASH_COMMANDS).1,
       (flash_sweep env FLASH_COMMANDS).2.1)
  else (FlashImagesResult.abortedIdentity, [])

/-- The outcome the sweep records for one partition spec when the direct
flash invocation does not raise: skip on a missing file, otherwise
classify by the exit code of the flash command. -/
def per_partition_outcome (env : FlashEnv) (partition img_file : String) : FlashOutcome :=
  if env.fileExists img_file = false then FlashOutcome.SkippedMissingFile
  else
    match env.flashResult partition img_file with
    | none => FlashOutcome.SkippedMissingFile
    | some (rc, errOut) =>
      if rc ≠ 0 then FlashOutcome.Failed errOut else FlashOutcome.Flashed

/-- Environment of main after the consent prompt: the results of the adb
devices and adb shell getprop queries, the poll streams of the two
possible ensure_fastbootd calls, the fastboot devices query of the
fastboot branch, the getvar all identity query of the fastboot branch,
and the environment of flash_images. -/
structure MainEnv where
  adbDevices : RunResult
  adbGetprop : RunResult
  ensureAfterAdb : FastbootEnv
  fastbootDevices : RunResult
  ensureInFastboot : FastbootEnv
  mainGetvarAll : RunResult
  flashEnv : FlashEnv

/-- Observable trace of one run of main after consent: the results of
the ensure_fastbootd calls (none when a call never happened), whether
the download-and-extract phase ran, whether flash_images was invoked,
the flash commands issued, and whether the final fastboot reboot was
issued. -/
structure MainTrace where
  ensureAfterAdbResult : Option Bool
  ensureInFastbootResult : Option Bool
  downloaded : Bool
  flashImagesCalled : Bool
  flashCommandsIssued : List (String × String)
  finalRebootIssued : Bool
  deriving DecidableEq

/-- The trace of a run of main that returns early before the download
phase, after the optional ensure_fastbootd results recorded so far. -/
def main_abort_trace (rA rB : Option Bool) : MainTrace :=
  { ensureAfterAdbResult := rA, ensureInFastbootResult := rB,
    downloaded := false, flashImagesCalled := false,
    flashCommandsIssued := [], finalRebootIssued := false }

/-- The tail of main from the download phase on: download and extract,
invoke flash_images, and, unless the missing-binary exception escaped
the sweep, clean up and issue the final fastboot reboot. -/
def main_flash_phase (env : MainEnv) (rA rB : Option Bool) : MainTrace :=
  match flash_images env.flashEnv with
  | (FlashImagesResult.uncaughtToolAbsent _, cmds) =>
    { ensureAfterAdbResult := rA, ensureInFastbootResult := rB,
      downloaded := true, flashImagesCalled := true,
      flashCommandsIssued := cmds, finalRebootIssued := false }
  | (_, cmds) =>
    { ensureAfterAdbResult := rA, ensureInFastbootResult := rB,
      downloaded := true, flashImagesCalled := true,
      flashCommandsIssued := cmds, finalRebootIssued := true }

/-- The fastboot branch of main: when a fastboot device is present, call
ensure_fastbootd, ignore its boolean result, and abort only when the
identity query fails; then fall through to the download and flash
phases. The fuel bounds the ensure_fastbootd iterations that can be
observed; none means that call was still polling. -/
def main_fastboot_phase (env : MainEnv) (fuel : Nat) (rA : Option Bool) : Option MainTrace :=
  if fastboot_device_present env.fastbootDevices then
    match ensure_fastbootd_loop env.ensureInFastboot fuel 0 with
    | none => none
    | some rB =>
      if detect_oneplus_n200_fastboot env.mainGetvarAll then
        some (main_flash_phase env rA (some rB))
      else some (main_abort_trace rA (some rB))
  else some (main_flash_phase env rA none)

/-- main after the consent prompt. In the adb branch the script reboots
a confirmed OnePlus N200 to fastbootd and calls ensure_fastbootd, whose
boolean result it ignores; an adb device that is not a OnePlus N200
aborts the run. It then enters the fastboot branch, and finally the
download and flash phases. -/
def main_after_consent (env : MainEnv) (fuel : Nat) : Option MainTrace :=
  if adb_device_present env.adbDevices then
    if detect_oneplus_n200_adb env.adbGetprop then
      match ensure_fastbootd_loop env.ensureAfterAdb fuel 0 with
      | none => none
      | some rA => main_fastboot_phase env fuel (some rA)
    else some (main_abort_trace none none)
  else main_fastboot_phase env fuel none

/-- Fixture: identity query gives the absence signal, all image files
present, flash commands exit zero. -/
def envIdentityFail : FlashEnv :=
  { getvarAll := none, fileExists := fun _ => true, flashResult := fun _ _ => some (0, "") }

/-- Fixture: passing identity check, tz.img the only missing image file,
flash commands always exit zero. -/
def envTzMissing : FlashEnv :=
  { getvarAll := some ("(bootloader) system-fingerprint: OnePlus/OnePlusN200/dre8t:11", ""),
    fileExists := fun f => f != "tz.img",
    flashResult := fun _ _ => some (0, "") }

/-- Fixture: passing identity check, all image files present, flash
binary absent so the direct invocation raises. -/
def envFlashToolAbsent : FlashEnv :=
  { getvarAll := some ("(bootloader) system-fingerprint: OnePlus/OnePlusN200/dre8t:11", ""),
    fileExists := fun _ => true, flashResult := fun _ _ => none }

/-- Fixture: a poll stream on which no fastboot command ever answers. -/
def envNeverPresent : FastbootEnv := { getvar := fun _ => none, devices := fun _ => none }

/-- Fixture for the sweep: file b.img missing, partition c exits 1 with
stderr text, everything else exits zero. -/
def envSweepDemo : FlashEnv :=
  { getvarAll := none,
    fileExists := fun f => f != "b.img",
    flashResult := fun p _ => some (if p = "c" then (1, "boom") else (0, "")) }

/-- A three-spec list exercising the skip, fail and success branches of
the sweep under envSweepDemo. -/
def specsSweepDemo : List (String × String) := [("a", "a.img"), ("b", "b.img"), ("c", "c.img")]

/-- Fixture: a confirmed OnePlus N200 in adb mode whose device never
answers again after the reboot toward fastbootd, so the mode-transition
loop fails on its first poll; no image file query matters because the
identity re-check inside flash_images fails too. -/
def envFailedTransition : MainEnv :=
  { adbDevices := some ("List of devices attached\n8f255aa1\tdevice", ""),
    adbGetprop := some ("[ro.product.name]: [OnePlusN200]", ""),
    ensureAfterAdb := envNeverPresent,
    fastbootDevices := some ("", ""),
    ensureInFastboot := envNeverPresent,
    mainGetvarAll := some ("", ""),
    flashEnv := { getvarAll := some ("", ""), fileExists := fun _ => true,
                  flashResult := fun _ _ => some (0, "") } }

/-- C1: flash_images re-confirms device identity with the fastboot
identity check before any flash command; whenever that check fails, the
whole batch is aborted at once: the result is the single fatal outcome
and the list of issued flash commands is empty. -/
theorem flash_images_aborts_when_identity_fails (env : FlashEnv)
    (h : detect_oneplus_n200_fastboot env.getvarAll = false) :
    flash_images env = (FlashImagesResult.abortedIdentity, []) := by
  simp [flash_images, h]

theorem flash_images_aborts_when_identity_fails_witness :
    flash_images envIdentityFail = (FlashImagesResult.abortedIdentity, []) :=
  flash_images_aborts_when_identity_fails envIdentityFail rfl

/-- C2 counterexample: on a poll iteration where the device is absent,
both commands give the absence signal, so the submode query yields
Unknown and no fastboot device is present; the loop then terminates with
failure on that very iteration instead of waiting 3 time units and
retrying, refuting the claim as stated. -/
theorem ensure_step_absent_terminates_counterexample :
    detect_fastboot_mode none = FastbootMode.unknown ∧
    fastboot_device_present none = false ∧
    ensure_fastbootd_step none none = LoopStep.stop false ∧
    ensure_fastbootd_step none none ≠ LoopStep.waitRetry 3 :=
  ⟨rfl, rfl, rfl, by decide⟩

/-- C2 amended: on every poll iteration where the submode query yields
Unknown while a fastboot device is present, the loop waits 3 time units
and retries; on an iteration where the device is absent it instead
terminates at once, returning false. -/
theorem ensure_step_unknown_present_retries (g d : RunResult) :
    (detect_fastboot_mode g = FastbootMode.unknown → fastboot_device_present d = true →
      ensure_fastbootd_step g d = LoopStep.waitRetry 3) ∧
    (fastboot_device_present d = false → ensure_fastbootd_step g d = LoopStep.stop false) := by
  constructor
  · intro hm hp
    simp [ensure_fastbootd_step, hm, hp]
  · intro hp
    simp [ensure_fastbootd_step, hp]

theorem ensure_step_unknown_present_retries_witness :
    ensure_fastbootd_step (some ("garbage", "")) (some ("8f255aa1\tfastboot", ""))
        = LoopStep.waitRetry 3 ∧
    ensure_fastbootd_step (some ("garbage", "")) none = LoopStep.stop false :=
  ⟨(ensure_step_unknown_present_retries (some ("garbage", ""))
      (some ("8f255aa1\tfastboot", ""))).1 rfl rfl,
   (ensure_step_unknown_present_retries (some ("garbage", "")) none).2 rfl⟩

/-- C3: a run on which the device is a confirmed OnePlus N200 over adb
but never re-enumerates after the reboot: the mode-transition loop
returns false on its first poll, yet main still runs the download phase,
still invokes flash_images and still issues the final fastboot reboot.
The boolean failure of ensure_fastbootd is ignored by main, so the run
is not aborted as the specification requires. -/
theorem main_proceeds_after_failed_transition :
    main_after_consent envFailedTransition 1 =
      some { ensureAfterAdbResult := some false, ensureInFastbootResult := none,
             downloaded := true, flashImagesCalled := true,
             flashCommandsIssued := [], finalRebootIssued := true } := rfl

/-- C4: whenever the flash binary is present, the sweep records for
every spec of the list the outcome dictated by its image file and exit
code - SkippedMissingFile on a missing file, Failed with the captured
stderr on a nonzero exit, Flashed on a zero exit - and no single failure
halts the sweep: the report pairs every partition of the list with its
outcome, in order. -/
theorem flash_sweep_best_effort (env : FlashEnv) (specs : List (String × String))
    (h : ∀ p f, (env.flashResult p f).isSome = true) :
    (flash_sweep env specs).1 =
      specs.map (fun pf => (pf.1, per_partition_outcome env pf.1 pf.2)) ∧
    (flash_sweep env specs).2.2 = none := by
  induction specs with
  | nil => exact ⟨rfl, rfl⟩
  | cons pf rest ih =>
    obtain ⟨p, f⟩ := pf
    by_cases hex : env.fileExists f = false
    · simp [flash_sweep, per_partition_outcome, hex, ih.1, ih.2]
    · have hsome := h p f
      cases hres : env.flashResult p f with
      | none => rw [hres] at hsome; simp at hsome
      | some v =>
        obtain ⟨rc, errOut⟩ := v
        simp [flash_sweep, per_partition_outcome, hex, hres, ih.1, ih.2]

theorem flash_sweep_best_effort_witness :
    (flash_sweep envSweepDemo specsSweepDemo).1 =
      specsSweepDemo.map
        (fun pf => (pf.1, per_partition_outcome envSweepDemo pf.1 pf.2)) ∧
    (flash_sweep envSweepDemo specsSweepDemo).2.2 = none :=
  flash_sweep_best_effort envSweepDemo specsSweepDemo (fun _ _ => rfl)

/-- C5: with the fixed 18-entry partition list, tz.img the only missing
image file, a passing identity check and flash commands that always exit
zero, flash_images reports exactly one SkippedMissingFile outcome, for
tz, and Flashed for the other 17 partitions, in the declared order. -/
theorem flash_images_tz_missing_report :
    flash_images envTzMissing =
      (FlashImagesResult.report [
        ("abl", FlashOutcome.Flashed), ("bluetooth", FlashOutcome.Flashed),
        ("core_nhlos", FlashOutcome.Flashed), ("devcfg", FlashOutcome.Flashed),
        ("dsp", FlashOutcome.Flashed), ("featenabler", FlashOutcome.Flashed),
        ("hyp", FlashOutcome.Flashed), ("imagefv", FlashOutcome.Flashed),
        ("keymaster", FlashOutcome.Flashed), ("logo", FlashOutcome.Flashed),
        ("modem", FlashOutcome.Flashed), ("oplusstanvbk", FlashOutcome.Flashed),
        ("qupfw", FlashOutcome.Flashed), ("rpm", FlashOutcome.Flashed),
        ("tz", FlashOutcome.SkippedMissingFile), ("uefisecapp", FlashOutcome.Flashed),
        ("xbl_config", FlashOutcome.Flashed), ("xbl", FlashOutcome.Flashed)],
       [("abl", "abl.img"), ("bluetooth", "bluetooth.img"), ("core_nhlos", "core_nhlos.img"),
        ("devcfg", "devcfg.img"), ("dsp", "dsp.img"), ("featenabler", "featenabler.img"),
        ("hyp", "hyp.img"), ("imagefv", "imagefv.img"), ("keymaster", "keymaster.img"),
        ("logo", "logo.img"), ("modem", "modem.img"), ("oplusstanvbk", "oplusstanvbk.img"),
        ("qupfw", "qupfw.img"), ("rpm", "rpm.img"), ("uefisecapp", "uefisecapp.img"),
        ("xbl_config", "xbl_config.img"), ("xbl", "xbl.img")]) := rfl

/-- C6: if no poll ever reports a fastboot-capable device present, the
ensure_fastbootd loop terminates with failure on its very first
iteration, whatever the starting index and whatever positive fuel bound
is observed: termination here does not depend on any iteration cap. -/
theorem ensure_fastbootd_fails_when_never_present (env : FastbootEnv) (fuel start : Nat)
    (h : ∀ i, fastboot_device_present (env.devices i) = false) (hf : 1 ≤ fuel) :
    ensure_fastbootd_loop env fuel start = some false := by
  cases fuel with
  | zero => omega
  | succ n =>
    have hstep : ensure_fastbootd_step (env.getvar start) (env.devices start)
        = LoopStep.stop false := by
      simp [ensure_fastbootd_step, h start]
    simp [ensure_fastbootd_loop, hstep]

theorem ensure_fastbootd_fails_when_never_present_witness :
    ensure_fastbootd_loop envNeverPresent 1 0 = some false :=
  ensure_fastbootd_fails_when_never_present envNeverPresent 1 0 (fun _ => rfl) (by decide)

/-- C7 counterexample: with a passing identity check, the image for the
first partition present and the flash binary absent, the direct
subprocess invocation inside the sweep raises the missing-binary
exception: flash_images surfaces an uncaught error and abandons the
sweep, refuting the claim that binary absence is never surfaced. -/
theorem flash_sweep_tool_absent_counterexample :
    flash_images envFlashToolAbsent =
      (FlashImagesResult.uncaughtToolAbsent "abl", [("abl", "abl.img")]) := rfl

/-- C7 amended: commands routed through the run helper treat a missing
binary as a normal no-signal condition - every detector returns its
ordinary negative or unknown result on the absence signal - but the
per-partition flash command inside the sweep calls the subprocess
directly, so a missing flash binary there raises an uncaught exception
that abandons the sweep at that partition. -/
theorem run_helper_absence_is_no_signal (env : FlashEnv) (p f : String)
    (rest : List (String × String))
    (hex : env.fileExists f = true) (habs : env.flashResult p f = none) :
    adb_device_present none = false ∧
    detect_oneplus_n200_adb none = false ∧
    fastboot_device_present none = false ∧
    detect_fastboot_mode none = FastbootMode.unknown ∧
    detect_oneplus_n200_fastboot none = false ∧
    (flash_sweep env ((p, f) :: rest)).2.2 = some p := by
  refine ⟨rfl, rfl, rfl, rfl, rfl, ?_⟩
  simp [flash_sweep, hex, habs]

theorem run_helper_absence_is_no_signal_witness :
    adb_device_present none = false ∧
    detect_oneplus_n200_adb none = false ∧
    fastboot_device_present none = false ∧
    detect_fastboot_mode none = FastbootMode.unknown ∧
    detect_oneplus_n200_fastboot none = false ∧
    (flash_sweep envFlashToolAbsent [("abl", "abl.img")]).2.2 = some "abl" :=
  run_helper_absence_is_no_signal envFlashToolAbsent "abl" "abl.img" [] rfl rfl

/-- C8: the identity checks are total functions that return false on the
absence signal and on any output without the tokens; the bridge check
succeeds exactly when some single getprop line holds both the property
key and the model token case-sensitively, and the fastboot check exactly
when some single line of the combined output holds both of its tokens
case-insensitively; tokens split over two lines, or a case mismatch on
the bridge side, are rejected. -/
theorem identity_checks_never_throw_token_iff :
    detect_oneplus_n200_adb none = false ∧
    detect_oneplus_n200_fastboot none = false ∧
    (∀ out err, detect_oneplus_n200_adb (some (out, err)) = true ↔
      ∃ line ∈ splitlines out,
        strContains line "ro.product.name" = true ∧ strContains line "OnePlusN200" = true) ∧
    (∀ out err, detect_oneplus_n200_fastboot (some (out, err)) = true ↔
      ∃ line ∈ splitlines (out ++ err),
        strContains (strToLower line) "system-fingerprint" = true ∧
          strContains (strToLower line) "oneplusn200" = true) ∧
    detect_oneplus_n200_adb (some ("ro.product.name\nOnePlusN200", "")) = false ∧
    detect_oneplus_n200_adb (some ("[ro.product.name]: [oneplusn200]", "")) = false ∧
    detect_oneplus_n200_fastboot (some ("SYSTEM-FINGERPRINT: ONEPLUSN200", "")) = true := by
  refine ⟨rfl, rfl, ?_, ?_, rfl, rfl, rfl⟩
  · intro out err
    simp [detect_oneplus_n200_adb, List.any_eq_true]
  · intro out err
    simp [detect_oneplus_n200_fastboot, combined_output, List.any_eq_true]

/-- C9: fastboot_device_present is true exactly when the concatenation
of the stdout and stderr of the fastboot devices command is nonempty
after stripping whitespace; in particular warning or error text on
stderr alone, from a run with no device attached, classifies as a
fastboot device being present. -/
theorem fastboot_device_present_iff_nonempty :
    (∀ res, fastboot_device_present res = true ↔ pyStrip (combined_output res) ≠ "") ∧
    fastboot_device_present (some ("", "fastboot: error: no devices found")) = true := by
  refine ⟨?_, rfl⟩
  intro res
  simp [fastboot_device_present, pyTruthy, bne_iff_ne]

/-- C10: adb_device_present ignores the header line of the device list
and is true exactly when some later line, once stripped, ends with the
exact word device; lines reporting any other state such as unauthorized
or offline, and a matching line in header position, classify as no
bridge device present. -/
theorem adb_device_present_iff_line_device :
    adb_device_present none = false ∧
    (∀ out err, adb_device_present (some (out, err)) = true ↔
      ∃ line ∈ (splitlines out).drop 1, strEndsWith (pyStrip line) "device" = true) ∧
    adb_device_present (some ("List of devices attached\n8f255aa1\tunauthorized", "")) = false ∧
    adb_device_present (some ("List of devices attached\n8f255aa1\toffline", "")) = false ∧
    adb_device_present (some ("8f255aa1\tdevice", "")) = false ∧
    adb_device_present (some ("List of devices attached\n8f255aa1\tdevice", "")) = true := by
  refine ⟨rfl, ?_, rfl, rfl, rfl, rfl⟩
  intro out err
  simp [adb_device_present, List.any_eq_true]
